import Mathlib

/-!
Verification development for the job-script generation core of the
hla_benchmark repository (src/scripts/command.py, src/scripts/job.py,
src/scripts/pathio.py), shallowly embedded in Lean 4.

Paths are modelled as plain strings (the rendering `str(path)` used by the
source), the filesystem as an explicit value threaded through the effectful
functions, and Python exceptions as `Except String` results carrying the
exact message raised by the source.
-/

/-- A filesystem path, modelled as its string rendering. -/
abbrev FPath := String

/-- Python `"sep".join(xs)` : the empty string on an empty list, otherwise
the elements interleaved with the separator. -/
def pyJoin (sep : String) : List String → String
  | [] => ""
  | [x] => x
  | x :: y :: xs => x ++ sep ++ pyJoin sep (y :: xs)

/-- Argument types accepted by `Command.__init__` (`CmdArg` in
src/scripts/command.py line 7: `str | int | bool | float | pathlib-path`).
The `float` alternative is omitted from the model: no operation of the
source that the claims cover is applied to float arguments, and exact
Python float formatting is outside the embedding. -/
inductive CmdArg where
  | str (s : String)
  | int (i : Int)
  | bool (b : Bool)
  | path (p : FPath)
deriving DecidableEq, Repr

/-- Python `str(arg)` on a `CmdArg`, as performed inside the `Command.args`
property (command.py lines 45-47): a `str` is returned as is, every other
argument is rendered with `str`. -/
def CmdArg.toStr : CmdArg → String
  | CmdArg.str s => s
  | CmdArg.int i => toString i
  | CmdArg.bool b => if b then "True" else "False"
  | CmdArg.path p => p

/-- True exactly on the `str` alternative. -/
def CmdArg.isStrArg : CmdArg → Bool
  | CmdArg.str _ => true
  | _ => false

/-- The `Command` class (command.py). `__init__` (lines 27-28) stores the
argument tuple unchanged: `self.__args = args`. `stored` is that raw tuple;
no validation and no conversion happens at construction time. -/
structure Command where
  stored : List CmdArg
deriving DecidableEq, Repr

/-- The `Command.args` property (command.py lines 30-47): returns the stored
arguments with every non-string converted via `str` at read time. (The
`isinstance(self.__args, str)` re-split branch is dead in the source: the
constructor only ever stores a tuple.) -/
def Command.args (c : Command) : List String :=
  c.stored.map CmdArg.toStr

/-- Rendering of a command: its tokens joined with single spaces, as done
at script-body time (`" ".join(command.args)`, job.py line 156). -/
def Command.render (c : Command) : String :=
  pyJoin " " c.args

/-- `Command.__add__` (command.py lines 49-72): builds a new `Command` from
the stringified arguments of both operands (`Command(*cmd1.args, *cmd2.args)`). -/
def Command.add (c1 c2 : Command) : Command :=
  Command.mk ((c1.args ++ c2.args).map CmdArg.str)

/-- `Command.__or__` (command.py lines 74-92): `self + Command("|") + cmd2`. -/
def Command.pipe (c1 c2 : Command) : Command :=
  (c1.add (Command.mk [CmdArg.str "|"])).add c2

/-- `Command.redirect_stdout_to_stderr` (command.py lines 169-179):
`self + Command(">&2")`. -/
def Command.redirect_stdout_to_stderr (c : Command) : Command :=
  c.add (Command.mk [CmdArg.str ">&2"])

/-- `Command.redirect_stderr_to_stdout` (command.py lines 181-191):
`self + Command("2>&1")`. -/
def Command.redirect_stderr_to_stdout (c : Command) : Command :=
  c.add (Command.mk [CmdArg.str "2>&1"])

/-- A snapshot of the filesystem: the set of existing directories and the
existing regular files with their contents. -/
structure FS where
  dirs : List FPath
  files : List (FPath × String)
deriving DecidableEq, Repr

/-- Python `path.exists()`: the path names an existing directory or file. -/
def FS.existsPath (fs : FS) (p : FPath) : Bool :=
  fs.dirs.contains p || fs.files.any (fun e => e.1 == p)

/-- Content of the regular file at `p`, if one exists. -/
def FS.lookupFile (fs : FS) (p : FPath) : Option String :=
  (fs.files.find? (fun e => e.1 == p)).map (fun e => e.2)

/-- Python `path.stat().st_size` for a regular file (the byte count of its
content; the source only compares it against zero, and only evaluates it on
paths that exist). -/
def FS.fileSize (fs : FS) (p : FPath) : Nat :=
  match fs.lookupFile p with
  | some c => c.length
  | none => 0

/-- Python `open(p, "w")` followed by a full write: creates or truncates the
regular file at `p` and stores `content` there. -/
def FS.writeFile (fs : FS) (p : FPath) (content : String) : FS :=
  FS.mk fs.dirs ((p, content) :: fs.files.filter (fun e => !(e.1 == p)))

/-- Parent path of `p` (the path with its last `/`-separated segment
removed), modelling `pathlib` parent resolution on the string rendering. -/
def parentOf (p : FPath) : FPath :=
  pyJoin "/" ((p.splitOn "/").dropLast)

/-- All `/`-separated ancestor paths of `p`, `p` itself included. -/
def ancestorPaths (p : FPath) : List FPath :=
  (List.range (p.splitOn "/").length).map
    (fun i => pyJoin "/" ((p.splitOn "/").take (i + 1)))

/-- Model of the external `pathlib.Path.mkdir(mode, parents, exist_ok)`
collaborator (Python standard library, not repository code): on an existing
path it raises `FileExistsError` unless `exist_ok` holds for a directory;
otherwise it creates the directory, creating missing ancestors when
`parents` holds and raising `FileNotFoundError` when the parent is missing
and `parents` does not hold. `mode` only affects permission bits, which the
model does not track. -/
def FS.mkdirModel (fs : FS) (p : FPath) (_mode : Nat) (parents exist_ok : Bool) :
    Except String FS :=
  if fs.existsPath p then
    if exist_ok && fs.dirs.contains p then Except.ok fs
    else Except.error ("FileExistsError: " ++ p)
  else if parents then
    Except.ok (FS.mk (ancestorPaths p ++ fs.dirs) fs.files)
  else if fs.existsPath (parentOf p) then
    Except.ok (FS.mk (p :: fs.dirs) fs.files)
  else
    Except.error ("FileNotFoundError: " ++ parentOf p)

/-- `make_dir` (pathio.py lines 133-176): `if not path.exists():
path.mkdir(mode=mode, parents=parents, exist_ok=exist_ok)` — an existing
path short-circuits to a plain successful return. (The `parse_path`
re-parsing branch applies only to non-`Path` inputs, which the typed
embedding excludes.) -/
def make_dir (fs : FS) (path : FPath) (mode : Nat) (parents exist_ok : Bool) :
    Except String FS :=
  if fs.existsPath path then Except.ok fs
  else fs.mkdirModel path mode parents exist_ok

/-- Python `dir / name` on paths, on the string rendering. -/
def pjoin (a b : FPath) : FPath := a ++ "/" ++ b

/-- `ResourceToAsk` (job.py lines 21-26). The Python fields are `int`;
the CLI only ever supplies nonnegative counts, so they are modelled as
naturals (which also makes `int(nproc / 2)` exact natural division). -/
structure ResourceToAsk where
  nproc : Nat
  ram : Nat
  ntask : Nat
  nodes : Nat
deriving DecidableEq, Repr

/-- `JobLog` (job.py lines 29-34). -/
structure JobLog where
  stdout : FPath
  stderr : FPath
  donefile : FPath
  failfile : FPath
deriving DecidableEq, Repr

/-- `Job` (job.py lines 13-18). -/
structure Job where
  name : String
  resource : ResourceToAsk
  log : JobLog
  script : FPath
deriving DecidableEq, Repr

/-- The line list built by `SlurmJobHeader.make` (job.py lines 43-58) before
joining: the shebang entry (which itself ends in a newline) followed by one
`#SBATCH` directive entry per resource/log setting. -/
def SlurmJobHeader_lines (job : Job) : List String :=
  ["#!/usr/bin/env bash\n",
   "#SBATCH" ++ " --job-name=\"" ++ job.name ++ "\"",
   "#SBATCH" ++ " --output=" ++ job.log.stdout,
   "#SBATCH" ++ " --error=" ++ job.log.stderr,
   "#SBATCH" ++ " --ntasks=" ++ toString job.resource.ntask,
   "#SBATCH" ++ " --nodes=" ++ toString job.resource.nodes,
   "#SBATCH" ++ " --cpus-per-task=" ++ toString job.resource.nproc,
   "#SBATCH" ++ " --mem=" ++ toString job.resource.ram ++ "G"]

/-- `SlurmJobHeader.make` (job.py lines 43-58): the lines joined with `\n`. -/
def SlurmJobHeader_make (job : Job) : String :=
  pyJoin "\n" (SlurmJobHeader_lines job)

/-- The line list built by `SGEJobHeader.make` (job.py lines 61-73) before
joining. The final directive is translated verbatim from source line 71,
`f"{directive_prefix} -l h_veme {job.resource.ram}G"`, misspelling included. -/
def SGEJobHeader_lines (job : Job) : List String :=
  ["#!/usr/bin/env bash\n",
   "#$" ++ " -N " ++ job.name,
   "#$" ++ " -o " ++ job.log.stdout,
   "#$" ++ " -e " ++ job.log.stderr,
   "#$" ++ " -pe shm " ++ toString (job.resource.nproc / 2),
   "#$" ++ " -l h_veme " ++ toString job.resource.ram ++ "G"]

/-- `SGEJobHeader.make` (job.py lines 61-73): the lines joined with `\n`. -/
def SGEJobHeader_make (job : Job) : String :=
  pyJoin "\n" (SGEJobHeader_lines job)

/-- Message of the `ValueError` raised for an unrecognized scheduler tag
(job.py lines 119-121 and 152-154). -/
def unsupported_scheduler_msg : String :=
  "Unrecognized scheduler value. Supports: slurm, sge, and bash"

/-- `setup_job_script` (job.py lines 106-121): ensure `dir/job` exists, then
pick the script path suffix from the scheduler tag, raising `ValueError` on
an unrecognized tag. -/
def setup_job_script (fs : FS) (dir : FPath) (filepfx : String)
    (scheduler : String) : Except String (FS × FPath) :=
  let jobdir := pjoin dir "job"
  match make_dir fs jobdir 511 true true with
  | Except.error e => Except.error e
  | Except.ok fs1 =>
    if scheduler = "slurm" then Except.ok (fs1, pjoin jobdir (filepfx ++ ".slurm"))
    else if scheduler = "sge" then Except.ok (fs1, pjoin jobdir (filepfx ++ ".sge"))
    else if scheduler = "bash" then Except.ok (fs1, pjoin jobdir (filepfx ++ ".sh"))
    else Except.error unsupported_scheduler_msg

/-- `add_rc_status_block` (job.py lines 124-134): the f-string epilogue,
translated segment by segment. -/
def add_rc_status_block (joblog : JobLog) : String :=
  "\nif [[ $? != 0 ]]; then\n    touch " ++ joblog.failfile ++
  "\n    exit 1\nelse\n    touch " ++ joblog.donefile ++
  "\n    exit 0\nfi\n\n    "

/-- A statement of the tiny shell fragment the epilogue is written in:
touch a file, or terminate the script with an exit code. -/
inductive ShStmt where
  | touch (p : FPath)
  | exitWith (code : Nat)
deriving DecidableEq, Repr

/-- Shell text of one statement. -/
def ShStmt.render : ShStmt → String
  | ShStmt.touch p => "touch " ++ p
  | ShStmt.exitWith c => "exit " ++ toString c

/-- A four-space-indented block of statements, one per line. -/
def renderIndented (stmts : List ShStmt) : String :=
  pyJoin "\n" (stmts.map (fun s => "    " ++ s.render))

/-- The shell conditional `if [[ $? != 0 ]]; then A else B fi`: branch on
the exit status of the immediately preceding command. -/
structure ShIfLastNZ where
  onFail : List ShStmt
  onZero : List ShStmt
deriving DecidableEq, Repr

/-- Shell text of the conditional, in the exact layout the epilogue uses
(leading newline, indented branches, trailing blank line and indent). -/
def ShIfLastNZ.render (b : ShIfLastNZ) : String :=
  "\nif [[ $? != 0 ]]; then\n" ++ renderIndented b.onFail ++
  "\nelse\n" ++ renderIndented b.onZero ++ "\nfi\n\n    "

/-- Run a straight-line block of statements: collect the files touched and
the exit code (`exit` terminates the block; a block that falls through
exits with status 0). -/
def execStmts : List ShStmt → List FPath × Nat
  | [] => ([], 0)
  | ShStmt.touch p :: rest => ((execStmts rest).1.cons p, (execStmts rest).2)
  | ShStmt.exitWith c :: _ => ([], c)

/-- Semantics of the conditional, given the exit status `$?` of the
immediately preceding command: which files are touched and with which code
the script terminates. -/
def ShIfLastNZ.exec (b : ShIfLastNZ) (status : Nat) : List FPath × Nat :=
  if status != 0 then execStmts b.onFail else execStmts b.onZero

/-- The epilogue of job.py lines 124-134 as a shell conditional: on failure
touch the fail marker and exit 1, otherwise touch the done marker and
exit 0. -/
def rc_status_block_ast (joblog : JobLog) : ShIfLastNZ :=
  ShIfLastNZ.mk
    [ShStmt.touch joblog.failfile, ShStmt.exitWith 1]
    [ShStmt.touch joblog.donefile, ShStmt.exitWith 0]

/-- The header dispatch of `make_jobscript` (job.py lines 144-154): the
scheduler tag selects the header generator, an unrecognized tag raises
`ValueError` before anything else happens. -/
def make_jobscript_header (scheduler : String) (job : Job) : Except String String :=
  if scheduler = "slurm" then Except.ok (SlurmJobHeader_make job)
  else if scheduler = "sge" then Except.ok (SGEJobHeader_make job)
  else if scheduler = "bash" then Except.ok "#!/usr/bin/env bash\n"
  else Except.error unsupported_scheduler_msg

/-- `make_jobscript` (job.py lines 137-164): generate the header (or fail),
join the rendered commands into the body, append the status epilogue, and
write `header\n\nbody\n\ntail` to the job script — but only when the target
does not exist, or `overwrite` is set, or the existing target is empty. -/
def make_jobscript (fs : FS) (commands : List Command) (job : Job)
    (scheduler : String) (overwrite : Bool) : Except String FS :=
  match make_jobscript_header scheduler job with
  | Except.error e => Except.error e
  | Except.ok header =>
    let body := pyJoin "\n" (commands.map Command.render)
    let tail := add_rc_status_block job.log
    let content := [header, body, tail]
    if !(fs.existsPath job.script) || overwrite || (fs.fileSize job.script == 0) then
      Except.ok (fs.writeFile job.script (pyJoin "\n\n" content))
    else
      Except.ok fs

/-- The write condition of job.py line 162: target missing, or `overwrite`
requested, or the existing target file empty. -/
def should_write (fs : FS) (job : Job) (overwrite : Bool) : Bool :=
  !(fs.existsPath job.script) || overwrite || (fs.fileSize job.script == 0)

/-- Header text for each of the three supported scheduler tags (the value
`make_jobscript_header` wraps in `Except.ok` there). -/
def supported_header (scheduler : String) (job : Job) : String :=
  if scheduler = "slurm" then SlurmJobHeader_make job
  else if scheduler = "sge" then SGEJobHeader_make job
  else if scheduler = "bash" then "#!/usr/bin/env bash\n"
  else ""

/-- The full script content `make_jobscript` assembles for a given header:
header, command body and epilogue joined with blank-line separators. -/
def jobscript_content (commands : List Command) (job : Job) (header : String) :
    String :=
  pyJoin "\n\n" [header, pyJoin "\n" (commands.map Command.render),
                 add_rc_status_block job.log]

/-- Boolean string-prefix test on the character lists. -/
def strStartsWith (s p : String) : Bool :=
  p.data.isPrefixOf s.data

/-- Splitting a character list at newline characters, mirroring Python
`str.split("\n")` (an empty trailing line is kept, as Python does). -/
def splitLinesChars : List Char → List (List Char)
  | [] => [[]]
  | c :: cs =>
    if c = '\n' then [] :: splitLinesChars cs
    else
      match splitLinesChars cs with
      | [] => [[c]]
      | l :: ls => (c :: l) :: ls

/-- The lines of a string, in the sense of Python `s.split("\n")`. -/
def linesOf (s : String) : List String :=
  (splitLinesChars s.data).map (fun l => String.mk l)

/-- An empty filesystem (no directories, no files). -/
def fs0 : FS := FS.mk [] []

/-- A filesystem holding just the directory `tmp`. -/
def fsD : FS := FS.mk ["tmp"] []

/-- A concrete log layout used by the closed witness statements. -/
def log0 : JobLog := JobLog.mk "o" "e" "d" "f"

/-- A concrete job used by the closed witness statements. -/
def job0 : Job := Job.mk "j" (ResourceToAsk.mk 8 4 1 1) log0 "wd/job/j.slurm"

/-- A concrete command used by the closed witness statements. -/
def cmd0 : Command :=
  Command.mk [CmdArg.str "toolX", CmdArg.str "--in", CmdArg.str "a.fq"]

theorem map_toStr_map_str (l : List String) :
    (l.map CmdArg.str).map CmdArg.toStr = l := by
  induction l with
  | nil => rfl
  | cons x xs ih => simp [CmdArg.toStr, ih]

theorem Command.args_add (c1 c2 : Command) :
    (c1.add c2).args = c1.args ++ c2.args := by
  have hc : CmdArg.toStr ∘ CmdArg.str ∘ CmdArg.toStr = CmdArg.toStr := by
    funext a; rfl
  simp only [Command.add, Command.args, List.map_append, List.map_map, hc]

theorem pyJoin_append (sep : String) (a b : List String)
    (ha : a ≠ []) (hb : b ≠ []) :
    pyJoin sep (a ++ b) = pyJoin sep a ++ sep ++ pyJoin sep b := by
  induction a with
  | nil => exact absurd rfl ha
  | cons x xs ih =>
    cases xs with
    | nil =>
      cases b with
      | nil => exact absurd rfl hb
      | cons y ys => simp [pyJoin]
    | cons z zs =>
      have ih' := ih (by simp)
      show x ++ sep ++ pyJoin sep ((z :: zs) ++ b)
         = (x ++ sep ++ pyJoin sep (z :: zs)) ++ sep ++ pyJoin sep b
      rw [ih']
      simp only [String.append_assoc]

theorem isPrefixOf_append_self (l t : List Char) :
    l.isPrefixOf (l ++ t) = true := by
  induction l with
  | nil => simp
  | cons a as ih => simp [List.isPrefixOf, ih]

theorem strStartsWith_append (p r : String) :
    strStartsWith (p ++ r) p = true := by
  simp only [strStartsWith, String.data_append]
  exact isPrefixOf_append_self _ _

theorem append_pipe_sep (A D : String) :
    A ++ " " ++ ("|" ++ " " ++ D) = A ++ " | " ++ D := by
  rw [String.append_assoc A " | " D, String.append_assoc A " " ("|" ++ " " ++ D)]
  rfl

/-- C5 counterexample: on the concrete command `ls`, the merge operation
renders as `ls >&2`, not as `ls 1>&2` — the appended token is `>&2`
(command.py line 179), not the `1>&2` the claim states. -/
theorem redirect_stdout_token_counterexample :
    ((Command.mk [CmdArg.str "ls"]).redirect_stdout_to_stderr).render = "ls >&2"
    ∧ ¬ (((Command.mk [CmdArg.str "ls"]).redirect_stdout_to_stderr).render
          = (Command.mk [CmdArg.str "ls"]).render ++ " " ++ "1>&2") := by
  decide

/-- C5 (amended): `redirect_stdout_to_stderr` returns a new Command whose
token sequence is the original token sequence with the single token `>&2`
appended (so a nonempty command renders as before, followed by one space
and `>&2`); the original command value is left unchanged. -/
theorem redirect_stdout_token_appended (c : Command) :
    (c.redirect_stdout_to_stderr).args = c.args ++ [">&2"] := by
  show (c.add (Command.mk [CmdArg.str ">&2"])).args = c.args ++ [">&2"]
  rw [Command.args_add]
  rfl

/-- C6 counterexample: the command constructed from the richer-typed
arguments `"sleep"` and the integer `8` stores the integer argument
unconverted — the stored token sequence is not made of strings only. -/
theorem command_stored_raw_counterexample :
    ((Command.mk [CmdArg.str "sleep", CmdArg.int 8]).stored.all
      CmdArg.isStrArg) = false := by
  decide

/-- C6 (amended): `Command.__init__` stores the argument tuple exactly as
given, and the conversion of richer argument types to plain strings happens
when the tokens are read back through the `args` property — at read time,
not before storage. -/
theorem command_args_stringified_at_read (ts : List CmdArg) :
    (Command.mk ts).stored = ts ∧ (Command.mk ts).args = ts.map CmdArg.toStr :=
  ⟨rfl, rfl⟩

/-- C7 counterexample: constructing a Command whose program name is the
empty string does not fail — `__init__` performs no validation, and the
resulting Command holds the given token. -/
theorem command_empty_program_counterexample :
    (Command.mk [CmdArg.str ""]).args = [""] := by
  decide

/-- C7 (amended): construction never fails; in particular a token list
whose program name is the empty string is accepted, and the resulting
Command holds exactly the given tokens. -/
theorem command_empty_program_accepted (rest : List CmdArg) :
    (Command.mk (CmdArg.str "" :: rest)).args = "" :: rest.map CmdArg.toStr := by
  simp [Command.args, CmdArg.toStr]

/-- C9 counterexample: for the argument-less command `Command()` piped into
`wc`, the rendering is `| wc`, while the claimed equation demands the
leading-space string `⟨space⟩| wc`. -/
theorem pipe_render_counterexample :
    ¬ (((Command.mk []).pipe (Command.mk [CmdArg.str "wc"])).render
        = (Command.mk []).render ++ " | "
          ++ (Command.mk [CmdArg.str "wc"]).render) := by
  decide

/-- C9 (amended): for all Commands `c` and `d` that each hold at least one
token, rendering `c` piped to `d` equals the rendering of `c`, a single
space, the pipe token, another single space, and the rendering of `d`. -/
theorem pipe_render_nonempty (c d : Command)
    (hc : c.args ≠ []) (hd : d.args ≠ []) :
    (c.pipe d).render = c.render ++ " | " ++ d.render := by
  have h1 : (c.pipe d).args = c.args ++ ("|" :: d.args) := by
    show ((c.add (Command.mk [CmdArg.str "|"])).add d).args = _
    rw [Command.args_add, Command.args_add, List.append_assoc]
    rfl
  obtain ⟨y, ys, hyd⟩ : ∃ y ys, d.args = y :: ys := by
    cases hdd : d.args with
    | nil => exact absurd hdd hd
    | cons y ys => exact ⟨y, ys, rfl⟩
  calc (c.pipe d).render
      = pyJoin " " ((c.pipe d).args) := rfl
    _ = pyJoin " " (c.args ++ ("|" :: d.args)) := by rw [h1]
    _ = pyJoin " " c.args ++ " " ++ pyJoin " " ("|" :: d.args) :=
        pyJoin_append " " c.args ("|" :: d.args) hc (by simp)
    _ = pyJoin " " c.args ++ " " ++ ("|" ++ " " ++ pyJoin " " d.args) := by
        rw [hyd]
        rfl
    _ = pyJoin " " c.args ++ " | " ++ pyJoin " " d.args := append_pipe_sep _ _
    _ = c.render ++ " | " ++ d.render := rfl

/-- C9 witness: the amended pipe-rendering equation at the concrete commands
`ls -l` and `wc`. -/
theorem pipe_render_nonempty_witness :
    ((Command.mk [CmdArg.str "ls", CmdArg.str "-l"]).pipe
        (Command.mk [CmdArg.str "wc"])).render
      = (Command.mk [CmdArg.str "ls", CmdArg.str "-l"]).render ++ " | "
        ++ (Command.mk [CmdArg.str "wc"]).render :=
  pipe_render_nonempty (Command.mk [CmdArg.str "ls", CmdArg.str "-l"])
    (Command.mk [CmdArg.str "wc"]) (by decide) (by decide)

theorem make_dir_parents_ok (fs : FS) (p : FPath) (m : Nat) :
    ∃ fs1, make_dir fs p m true true = Except.ok fs1 := by
  unfold make_dir FS.mkdirModel
  by_cases h : fs.existsPath p = true
  · exact ⟨fs, by simp [h]⟩
  · exact ⟨FS.mk (ancestorPaths p ++ fs.dirs) fs.files, by simp [h]⟩

/-- C10: `make_dir` on a path that already exists returns successfully,
leaves the filesystem untouched, and ignores the `mode`, `parents` and
`exist_ok` flags — they can only matter for paths that do not yet exist. -/
theorem make_dir_existing_noop (fs : FS) (p : FPath) (mode : Nat)
    (parents exist_ok : Bool) (h : fs.existsPath p = true) :
    make_dir fs p mode parents exist_ok = Except.ok fs := by
  simp [make_dir, h]

/-- C10 witness: `make_dir` on the existing directory `tmp` of `fsD`
is a no-op success for one concrete flag combination. -/
theorem make_dir_existing_noop_witness :
    make_dir fsD "tmp" 0 false false = Except.ok fsD :=
  make_dir_existing_noop fsD "tmp" 0 false false (by decide)

/-- C8: for every scheduler tag other than `slurm`, `sge` and `bash`,
header generation fails with the unsupported-scheduler error, and
`make_jobscript` propagates exactly that error — it terminates at
header-generation time with no write performed and no resulting
filesystem. -/
theorem make_jobscript_unsupported (fs : FS) (commands : List Command)
    (job : Job) (scheduler : String) (overwrite : Bool)
    (h1 : scheduler ≠ "slurm") (h2 : scheduler ≠ "sge") (h3 : scheduler ≠ "bash") :
    make_jobscript_header scheduler job = Except.error unsupported_scheduler_msg
    ∧ make_jobscript fs commands job scheduler overwrite
        = Except.error unsupported_scheduler_msg := by
  have hh : make_jobscript_header scheduler job
      = Except.error unsupported_scheduler_msg := by
    simp [make_jobscript_header, h1, h2, h3]
  exact ⟨hh, by simp [make_jobscript, hh]⟩

/-- C8 witness: the unrecognized tag `pbs` fails both derivations at a
concrete call. -/
theorem make_jobscript_unsupported_witness :
    make_jobscript_header "pbs" job0 = Except.error unsupported_scheduler_msg
    ∧ make_jobscript fs0 [cmd0] job0 "pbs" false
        = Except.error unsupported_scheduler_msg :=
  make_jobscript_unsupported fs0 [cmd0] job0 "pbs" false
    (by decide) (by decide) (by decide)

/-- C1: for every supported scheduler tag, `make_jobscript` writes the
assembled script content exactly when the target does not exist, or
`overwrite` is set, or the existing target file is empty
(`should_write`); in every other case it succeeds while returning the
filesystem unchanged. -/
theorem make_jobscript_write_policy (fs : FS) (commands : List Command)
    (job : Job) (scheduler : String) (overwrite : Bool)
    (h : scheduler = "slurm" ∨ scheduler = "sge" ∨ scheduler = "bash") :
    make_jobscript fs commands job scheduler overwrite =
      Except.ok (if should_write fs job overwrite
                 then fs.writeFile job.script
                   (jobscript_content commands job (supported_header scheduler job))
                 else fs) := by
  have hmk : ∀ sched, make_jobscript fs commands job sched overwrite =
      match make_jobscript_header sched job with
      | Except.error e => Except.error e
      | Except.ok header =>
        if should_write fs job overwrite
        then Except.ok (fs.writeFile job.script
               (jobscript_content commands job header))
        else Except.ok fs := fun _ => rfl
  rcases h with rfl | rfl | rfl <;> rw [hmk, apply_ite Except.ok] <;> rfl

/-- C1 witness: on the empty filesystem the target does not exist, so a
concrete slurm call performs the write. -/
theorem make_jobscript_write_policy_witness :
    make_jobscript fs0 [cmd0] job0 "slurm" false =
      Except.ok (fs0.writeFile job0.script
        (jobscript_content [cmd0] job0 (supported_header "slurm" job0))) := by
  have h := make_jobscript_write_policy fs0 [cmd0] job0 "slurm" false (Or.inl rfl)
  have hc : should_write fs0 job0 false = true := by decide
  rw [hc] at h
  simpa using h

/-- C3 evaluation at a concrete failing input (job name `j`, nproc 8,
ram 4): the SGE header's memory directive is `#$ -l h_veme 4G` — the
resource name is misspelled (`h_veme` for `h_vmem`) and space-separated —
while the claim (and valid SGE syntax) requires `-l h_vmem=4G`. The
other directives (`-N`, `-o`, `-e`, `-pe shm nproc/2`) match the claim. -/
theorem sge_memory_directive_eval :
    SGEJobHeader_lines job0
      = ["#!/usr/bin/env bash\n", "#$ -N j", "#$ -o o", "#$ -e e",
         "#$ -pe shm 4", "#$ -l h_veme 4G"]
    ∧ (SGEJobHeader_lines job0).contains "#$ -l h_vmem=4G" = false := by
  decide

/-- C2: per scheduler tag, the script-path suffix chosen by
`setup_job_script` and the header emitted by `make_jobscript`'s dispatch
agree: `slurm` yields the `.slurm` suffix and a header whose directive
lines (everything after the shebang entry) all start with `#SBATCH`;
`sge` yields `.sge` and directive lines starting with `#$`; `bash`
yields `.sh` and a header that is only the shebang, with no directive
lines. -/
theorem scheduler_suffix_header_agreement (fs : FS) (dir : FPath)
    (filepfx : String) (job : Job) :
    (∃ fs1, setup_job_script fs dir filepfx "slurm"
        = Except.ok (fs1, pjoin (pjoin dir "job") (filepfx ++ ".slurm")))
    ∧ make_jobscript_header "slurm" job = Except.ok (SlurmJobHeader_make job)
    ∧ ((SlurmJobHeader_lines job).tail.all
        (fun l => strStartsWith l "#SBATCH")) = true
    ∧ (SlurmJobHeader_lines job).tail.length = 7
    ∧ (∃ fs1, setup_job_script fs dir filepfx "sge"
        = Except.ok (fs1, pjoin (pjoin dir "job") (filepfx ++ ".sge")))
    ∧ make_jobscript_header "sge" job = Except.ok (SGEJobHeader_make job)
    ∧ ((SGEJobHeader_lines job).tail.all
        (fun l => strStartsWith l "#$")) = true
    ∧ (SGEJobHeader_lines job).tail.length = 5
    ∧ (∃ fs1, setup_job_script fs dir filepfx "bash"
        = Except.ok (fs1, pjoin (pjoin dir "job") (filepfx ++ ".sh")))
    ∧ make_jobscript_header "bash" job = Except.ok "#!/usr/bin/env bash\n"
    ∧ ((linesOf "#!/usr/bin/env bash\n").all
        (fun l => !(strStartsWith l "#SBATCH") && !(strStartsWith l "#$")))
        = true := by
  obtain ⟨fs1, h1⟩ := make_dir_parents_ok fs (pjoin dir "job") 511
  refine ⟨⟨fs1, ?_⟩, rfl, ?_, rfl, ⟨fs1, ?_⟩, rfl, ?_, rfl, ⟨fs1, ?_⟩, rfl, ?_⟩
  · simp [setup_job_script, h1]
  · simp only [SlurmJobHeader_lines, List.tail_cons, List.all_cons, List.all_nil,
               String.append_assoc, strStartsWith_append, Bool.true_and,
               Bool.and_true]
  · simp [setup_job_script, h1]
  · simp only [SGEJobHeader_lines, List.tail_cons, List.all_cons, List.all_nil,
               String.append_assoc, strStartsWith_append, Bool.true_and,
               Bool.and_true]
  · simp [setup_job_script, h1]
  · decide

/-- C4: the epilogue string appended by `add_rc_status_block` is exactly
the rendering of a fixed shell conditional on `$?` — the exit status of
the immediately preceding command — whose semantics touches the
fail-marker file and exits 1 on a non-zero status, and touches the
done-marker file and exits 0 on a zero status. -/
theorem rc_status_block_semantics (joblog : JobLog) (status : Nat) :
    add_rc_status_block joblog = (rc_status_block_ast joblog).render
    ∧ (status ≠ 0 →
        (rc_status_block_ast joblog).exec status = ([joblog.failfile], 1))
    ∧ (status = 0 →
        (rc_status_block_ast joblog).exec status = ([joblog.donefile], 0)) := by
  refine ⟨?_, ?_, ?_⟩
  · simp only [rc_status_block_ast, ShIfLastNZ.render, renderIndented,
               ShStmt.render, List.map_cons, List.map_nil, pyJoin,
               add_rc_status_block, String.append_assoc]
    rfl
  · intro h
    have hb : (status != 0) = true := by simpa using h
    simp [ShIfLastNZ.exec, hb, rc_status_block_ast, execStmts]
  · intro h
    subst h
    simp [ShIfLastNZ.exec, rc_status_block_ast, execStmts]

/-- C4 witness: the epilogue semantics at the concrete log layout `log0`,
for the failing status 2 and the succeeding status 0. -/
theorem rc_status_block_semantics_witness :
    (rc_status_block_ast log0).exec 2 = ([log0.failfile], 1)
    ∧ (rc_status_block_ast log0).exec 0 = ([log0.donefile], 0) :=
  ⟨(rc_status_block_semantics log0 2).2.1 (by decide),
   (rc_status_block_semantics log0 0).2.2 rfl⟩
